import Mathlib

/-!
Shallow embedding of the mochi-mqtt HTTP auth hook.

The repository has two variants of the same delegate:
  * the current hook (`Hook`, `Options`, `defaultCallback`, `NewTransport`,
    `validateConfig`, `makeRequest`, `OnConnectAuthenticate`, `OnACLCheck`),
    embedded below with the source's names;
  * a legacy variant (`HTTPAuthHook` in src/auth/http.go) whose entry points
    contain an inline explicit 401/403 deny branch before the 2xx test; only
    that status-decision portion is embedded (as
    `HTTPAuthHook.connectStatusDecision` / `HTTPAuthHook.aclStatusDecision`).

Go machine details modelled:
  * `*url.URL` becomes `Option URL` with `URL := String` (the rendered URL);
    a nil pointer is `none`.
  * Go `int` status codes become `Int`.
  * `http.RoundTripper` becomes a function from a request to
    `Except TransportError HttpResponse`; a transport-level (network) error
    is the `Except.error` case.
  * `json.Marshal` of the two fixed payload structs becomes `jsonMarshal`,
    producing the ordered field-name/value list that Go's encoding/json
    emits for those structs (struct field order, tag names); marshalling of
    these all-string structs cannot fail, matching the source where the
    error branch is dead for these shapes.
  * `Init` mutates its receiver and returns an error; it is embedded as
    `Hook.initState : Hook → Config → Hook × Option InitError`, returning
    the receiver's state after the call together with the returned error
    (the Go method returns before any assignment on every error path).
  * the `any`-typed config is the inductive `Config`: `cnil` for a nil
    interface value, `options` for a value of type `Options`, `badShape`
    for any other non-nil value (the failed type assertion).
-/

/-- Rendered form of a Go `url.URL`; a `*url.URL` is `Option URL`. -/
def URL := String

deriving instance DecidableEq for URL

/-- Transport-level error (connection refused, DNS failure, ...), the
`error` result of a round trip. -/
structure TransportError where
  msg : String
deriving DecidableEq

/-- The part of `http.Response` this code reads: the status code, plus an
opaque body so a custom callback can observe more than the status. -/
structure HttpResponse where
  statusCode : Int
  body : String := ""
deriving DecidableEq

/-- JSON object as the ordered field-name/value list `encoding/json`
produces for the two payload structs (all fields are strings). -/
def Json := List (String × String)

deriving instance DecidableEq for Json

/-- The part of `http.Request` this code constructs: method, target URL
and body (`none` models `http.NoBody`). -/
structure HttpRequest where
  method : String
  url : Option URL
  body : Option Json

/-- `http.RoundTripper`: send one request, receive one response or a
transport error. -/
def RoundTripper := HttpRequest → Except TransportError HttpResponse

/-- `http.MethodPost`. -/
def MethodPost : String := "POST"

/-- `http.StatusUnauthorized`. -/
def StatusUnauthorized : Int := 401

/-- `http.StatusForbidden`. -/
def StatusForbidden : Int := 403

/-- Environment model of `http.DefaultTransport`, the platform's standard
outbound HTTP transport. Its actual network behaviour is external to the
repository; no theorem below depends on what it returns, only on requests
being forwarded to it unchanged. -/
def DefaultTransport : RoundTripper :=
  fun _ => Except.error { msg := "network behaviour external to this code" }

/-- `Transport` wraps the original round tripper (src: `type Transport`). -/
structure Transport where
  OriginalTransport : RoundTripper

/-- `Transport.RoundTrip`: forwards the request to the wrapped transport. -/
def Transport.RoundTrip (st : Transport) (r : HttpRequest) :
    Except TransportError HttpResponse :=
  st.OriginalTransport r

/-- The part of `http.Client` this code uses: its `Transport`. -/
structure Client where
  Transport : RoundTripper

/-- `http.Client.Do` for this code's plain POST requests: one round trip
through the client's transport. -/
def Client.Do (c : Client) (req : HttpRequest) :
    Except TransportError HttpResponse :=
  c.Transport req

/-- `NewTransport`: if no round tripper is supplied, install a `Transport`
wrapping `http.DefaultTransport`; either way return a client using it. -/
def NewTransport (rt : Option RoundTripper) : Client :=
  match rt with
  | none => { Transport := Transport.RoundTrip { OriginalTransport := DefaultTransport } }
  | some rt => { Transport := rt }

/-- `defaultCallback`: allow iff the status code is in [200, 300). -/
def defaultCallback (resp : HttpResponse) : Bool :=
  decide (200 ≤ resp.statusCode) && decide (resp.statusCode < 300)

/-- `ClientCheckPOST`, the connect-check payload struct. -/
structure ClientCheckPOST where
  ClientID : String   -- json:"clientid"
  Password : String   -- json:"password"
  Username : String   -- json:"username"

/-- `ACLCheckPOST`, the topic-check payload struct. -/
structure ACLCheckPOST where
  Username : String   -- json:"username"
  ClientID : String   -- json:"clientid"
  Topic : String      -- json:"topic"
  ACC : String        -- json:"acc"

/-- The `any`-typed payload values actually passed to `makeRequest`. -/
inductive Payload where
  | clientCheck (p : ClientCheckPOST)
  | aclCheck (p : ACLCheckPOST)

/-- `json.Marshal` on the two payload structs: fields in struct order,
under their json tag names. -/
def jsonMarshal : Payload → Json
  | .clientCheck p => [("clientid", p.ClientID), ("password", p.Password), ("username", p.Username)]
  | .aclCheck p => [("username", p.Username), ("clientid", p.ClientID), ("topic", p.Topic), ("acc", p.ACC)]

/-- `strconv.FormatBool`. -/
def FormatBool (b : Bool) : String :=
  if b then "true" else "false"

/-- `Options`, the configuration struct passed to `Init`. -/
structure Options where
  ACLHost : Option URL
  SuperUserHost : Option URL
  ClientAuthenticationHost : Option URL
  RoundTripper : Option RoundTripper
  Callback : Option (HttpResponse → Bool)

/-- The `any` value handed to `Init`: nil, an `Options` value, or any
other (non-nil, wrong-typed) value on which the type assertion fails. -/
inductive Config where
  | cnil
  | options (o : Options)
  | badShape

/-- The three distinct errors `Init` can return, by their `errors.New`
message. -/
inductive InitError where
  | errNilConfig
  | errBadConfigShape
  | errInvalidHosts
deriving DecidableEq

/-- The message each `Init` error carries. -/
def InitError.message : InitError → String
  | .errNilConfig => "nil config"
  | .errBadConfigShape => "improper config"
  | .errInvalidHosts => "hostname configs failed validation"

/-- `validateConfig`: both the ACL host and the client-authentication host
must be non-nil. -/
def validateConfig (config : Options) : Bool :=
  if config.ACLHost.isNone || config.ClientAuthenticationHost.isNone then
    false
  else
    true

/-- The hook's fields (src: `type Hook`). -/
structure Hook where
  httpClient : Client
  aclhost : Option URL
  clientauthhost : Option URL
  superuserhost : Option URL  -- currently unused
  callback : HttpResponse → Bool

/-- `Hook.Init` as a state transformer: the receiver's fields after the
call, paired with the returned error. Every error path of the Go method
returns before any field assignment, so those cases return the receiver
unchanged. -/
def Hook.initState (h : Hook) (config : Config) : Hook × Option InitError :=
  match config with
  | .cnil => (h, some .errNilConfig)
  | .badShape => (h, some .errBadConfigShape)
  | .options authHookConfig =>
    if !validateConfig authHookConfig then
      (h, some .errInvalidHosts)
    else
      ({ h with
          callback := match authHookConfig.Callback with
            | some cb => cb
            | none => defaultCallback
          httpClient := NewTransport authHookConfig.RoundTripper
          aclhost := authHookConfig.ACLHost
          clientauthhost := authHookConfig.ClientAuthenticationHost
          superuserhost := authHookConfig.SuperUserHost },
        none)

/-- `Hook.makeRequest`: marshal the payload (or use `http.NoBody`), build
the request, send it through the client. Marshalling and request
construction cannot fail for the shapes this code sends, so the only
error source is the round trip. -/
def Hook.makeRequest (h : Hook) (requestType : String) (u : Option URL)
    (payload : Option Payload) : Except TransportError HttpResponse :=
  let buffer : Option Json := match payload with
    | none => none
    | some p => some (jsonMarshal p)
  let req : HttpRequest := { method := requestType, url := u, body := buffer }
  h.httpClient.Do req

/-- The connect-relevant fields of a `packets.Packet`: the credentials in
its `Connect` section (byte slices, read verbatim via `string(...)`). -/
structure ConnectData where
  Username : String
  Password : String

/-- `packets.Packet`, restricted to what this code reads. -/
structure Packet where
  Connect : ConnectData

/-- `mqtt.Client.Properties`, restricted to what this code reads. -/
structure ClientProperties where
  Username : String

/-- `mqtt.Client`, restricted to what this code reads. -/
structure MqttClient where
  ID : String
  Properties : ClientProperties

/-- `Hook.OnConnectAuthenticate`: build the connect payload, POST it to
the client-authentication host, deny on transport error, otherwise apply
the configured callback to the response. -/
def Hook.OnConnectAuthenticate (h : Hook) (cl : MqttClient) (pk : Packet) : Bool :=
  let payload : ClientCheckPOST :=
    { ClientID := cl.ID
      Password := pk.Connect.Password
      Username := pk.Connect.Username }
  match h.makeRequest MethodPost h.clientauthhost (some (.clientCheck payload)) with
  | .error _ => false
  | .ok resp => h.callback resp

/-- `Hook.OnACLCheck`: build the ACL payload (`acc` is
`strconv.FormatBool write`), POST it to the ACL host, deny on transport
error, otherwise apply the configured callback to the response. -/
def Hook.OnACLCheck (h : Hook) (cl : MqttClient) (topic : String) (write : Bool) : Bool :=
  let payload : ACLCheckPOST :=
    { ClientID := cl.ID
      Username := cl.Properties.Username
      Topic := topic
      ACC := FormatBool write }
  match h.makeRequest MethodPost h.aclhost (some (.aclCheck payload)) with
  | .error _ => false
  | .ok resp => h.callback resp

/-- Status decision inlined in the legacy `HTTPAuthHook.OnConnectAuthenticate`
(src/auth/http.go): explicit deny on 401/403, then the 2xx-range test. -/
def HTTPAuthHook.connectStatusDecision (resp : HttpResponse) : Bool :=
  if resp.statusCode == StatusUnauthorized || resp.statusCode == StatusForbidden then
    false
  else
    decide (200 ≤ resp.statusCode) && decide (resp.statusCode < 300)

/-- Status decision inlined in the legacy `HTTPAuthHook.OnACLCheck`
(src/auth/http.go): explicit deny on 401/403, then the 2xx-range test. -/
def HTTPAuthHook.aclStatusDecision (resp : HttpResponse) : Bool :=
  if resp.statusCode == StatusUnauthorized || resp.statusCode == StatusForbidden then
    false
  else
    decide (200 ≤ resp.statusCode) && decide (resp.statusCode < 300)

/-! ## Shared lemmas -/

/-- Unfolding: `makeRequest` is one round trip on the request it builds. -/
theorem Hook.makeRequest_eq (h : Hook) (m : String) (u : Option URL) (p : Option Payload) :
    h.makeRequest m u p =
      h.httpClient.Transport { method := m, url := u, body := p.map jsonMarshal } := by
  cases p <;> rfl

/-! ## Claims -/

/-- C2: the default decision evaluator allows exactly the status codes in
[200, 300) — every other status code (all 3xx, 4xx, 5xx included) yields
deny; and it is the same single evaluator that initialization installs for
both the connect-check and the topic-check path whenever no override is
supplied. -/
theorem defaultCallback_allows_iff_2xx (resp : HttpResponse) (h0 : Hook) (o : Options) :
    (defaultCallback resp = true ↔ 200 ≤ resp.statusCode ∧ resp.statusCode < 300)
    ∧ (o.Callback = none → validateConfig o = true →
        (Hook.initState h0 (Config.options o)).1.callback = defaultCallback) := by
  constructor
  · simp [defaultCallback]
  · intro hcb hv
    simp [Hook.initState, hv, hcb]

/-- C2 witness: at status 200 the default evaluator allows, and a concrete
successful initialization without an override installs `defaultCallback`. -/
theorem defaultCallback_allows_iff_2xx_witness :
    (defaultCallback { statusCode := 200 } = true ↔
      200 ≤ (200 : Int) ∧ (200 : Int) < 300)
    ∧ (Hook.initState
        { httpClient := { Transport := fun _ => Except.error { msg := "down" } },
          aclhost := none, clientauthhost := none, superuserhost := none,
          callback := defaultCallback }
        (Config.options
          { ACLHost := some "http://acl", SuperUserHost := none,
            ClientAuthenticationHost := some "http://auth",
            RoundTripper := none, Callback := none })).1.callback = defaultCallback := by
  refine ⟨(defaultCallback_allows_iff_2xx { statusCode := 200 }
      { httpClient := { Transport := fun _ => Except.error { msg := "down" } },
        aclhost := none, clientauthhost := none, superuserhost := none,
        callback := defaultCallback }
      { ACLHost := some "http://acl", SuperUserHost := none,
        ClientAuthenticationHost := some "http://auth",
        RoundTripper := none, Callback := none }).1,
    (defaultCallback_allows_iff_2xx { statusCode := 200 }
      { httpClient := { Transport := fun _ => Except.error { msg := "down" } },
        aclhost := none, clientauthhost := none, superuserhost := none,
        callback := defaultCallback }
      { ACLHost := some "http://acl", SuperUserHost := none,
        ClientAuthenticationHost := some "http://auth",
        RoundTripper := none, Callback := none }).2 rfl rfl⟩

/-- C6: for every connect check, the request handed to the transport is a
POST to the client-authentication host whose JSON body is exactly
`{"clientid": cl.ID, "password": pk.Connect.Password, "username":
pk.Connect.Username}` — each field verbatim from the client/packet, under
exactly those JSON field names — and the returned boolean is determined by
that single exchange (deny on error, callback on the response). -/
theorem onConnectAuthenticate_sends_exact_payload (h : Hook) (cl : MqttClient) (pk : Packet) :
    h.OnConnectAuthenticate cl pk =
      match h.httpClient.Transport
          { method := "POST", url := h.clientauthhost,
            body := some [("clientid", cl.ID), ("password", pk.Connect.Password),
                          ("username", pk.Connect.Username)] } with
      | .error _ => false
      | .ok resp => h.callback resp := rfl

/-- C7: for every topic-access check, the request handed to the transport
is a POST to the ACL host whose JSON body is exactly `{"username":
cl.Properties.Username, "clientid": cl.ID, "topic": topic, "acc":
FormatBool write}` — and `FormatBool` renders a write as the literal
string "true" and a read as the literal string "false". -/
theorem onACLCheck_sends_exact_payload (h : Hook) (cl : MqttClient) (topic : String) (write : Bool) :
    (h.OnACLCheck cl topic write =
      match h.httpClient.Transport
          { method := "POST", url := h.aclhost,
            body := some [("username", cl.Properties.Username), ("clientid", cl.ID),
                          ("topic", topic), ("acc", FormatBool write)] } with
      | .error _ => false
      | .ok resp => h.callback resp)
    ∧ FormatBool true = "true" ∧ FormatBool false = "false" := ⟨rfl, rfl, rfl⟩

/-- C8: with no round tripper supplied, `NewTransport` installs a default
transport that forwards every request unchanged to `http.DefaultTransport`;
with one supplied, every request passes through it unmodified — the
wrapper's `RoundTrip` hands the very request it received to the wrapped
transport, adding nothing. -/
theorem newTransport_forwards_unchanged (r : HttpRequest) (rt : RoundTripper) :
    (NewTransport none).Transport r = DefaultTransport r
    ∧ (NewTransport (some rt)).Transport r = rt r
    ∧ Transport.RoundTrip { OriginalTransport := rt } r = rt r := ⟨rfl, rfl, rfl⟩

/-- C9: the legacy variant's explicit deny-on-401/403 branch followed by
the 2xx-range test computes, for every response, the same boolean as the
plain default evaluator (status in [200, 300)), and the connect path and
the ACL path of the legacy variant agree with each other. -/
theorem legacy_status_decision_eq_defaultCallback (resp : HttpResponse) :
    HTTPAuthHook.connectStatusDecision resp = defaultCallback resp
    ∧ HTTPAuthHook.aclStatusDecision resp = defaultCallback resp := by
  have key : HTTPAuthHook.connectStatusDecision resp = defaultCallback resp := by
    unfold HTTPAuthHook.connectStatusDecision defaultCallback StatusUnauthorized StatusForbidden
    rcases resp with ⟨s, b⟩
    by_cases h1 : s = 401
    · subst h1; simp
    · by_cases h3 : s = 403
      · subst h3; simp
      · simp [h1, h3]
  exact ⟨key, key.trans rfl⟩

/-- `makeRequest` never reads the hook's callback field. -/
theorem Hook.makeRequest_callback_irrel (h : Hook) (cb : HttpResponse → Bool)
    (m : String) (u : Option URL) (p : Option Payload) :
    Hook.makeRequest { h with callback := cb } m u p = h.makeRequest m u p := rfl

/-- C1: whenever the send step (`makeRequest`) returns a transport-level
error, both entry points return deny (`false`), for either request
variant, and the decision callback is never consulted: the outcome is
`false` no matter which callback the hook carries. -/
theorem transport_error_denies (h : Hook) (cl : MqttClient) (pk : Packet)
    (topic : String) (write : Bool) (e1 e2 : TransportError)
    (hc : h.makeRequest MethodPost h.clientauthhost
        (some (.clientCheck { ClientID := cl.ID, Password := pk.Connect.Password,
                              Username := pk.Connect.Username })) = .error e1)
    (ha : h.makeRequest MethodPost h.aclhost
        (some (.aclCheck { ClientID := cl.ID, Username := cl.Properties.Username,
                           Topic := topic, ACC := FormatBool write })) = .error e2) :
    h.OnConnectAuthenticate cl pk = false
    ∧ h.OnACLCheck cl topic write = false
    ∧ ∀ cb : HttpResponse → Bool,
        Hook.OnConnectAuthenticate { h with callback := cb } cl pk = false
        ∧ Hook.OnACLCheck { h with callback := cb } cl topic write = false := by
  refine ⟨?_, ?_, fun cb => ⟨?_, ?_⟩⟩ <;>
    simp [Hook.OnConnectAuthenticate, Hook.OnACLCheck,
          Hook.makeRequest_callback_irrel, hc, ha]

/-- A transport that fails every request with a connection-refused error. -/
def testTransportErr : RoundTripper :=
  fun _ => Except.error { msg := "connection refused" }

/-- A transport that answers every request with status 200. -/
def testTransportOK : RoundTripper :=
  fun _ => Except.ok { statusCode := 200, body := "" }

/-- A concrete client fixture. -/
def testMqttClient : MqttClient :=
  { ID := "cid", Properties := { Username := "user" } }

/-- A concrete connect-packet fixture. -/
def testPacket : Packet :=
  { Connect := { Username := "user", Password := "pw" } }

/-- A hook at its pre-`Init` state (`callback` cannot be Go's nil function
value in this embedding, so the default evaluator stands in for it; no
theorem depends on this choice). -/
def zeroHook : Hook :=
  { httpClient := { Transport := testTransportErr },
    aclhost := none, clientauthhost := none, superuserhost := none,
    callback := defaultCallback }

/-- A hook whose transport always fails, with both hosts configured. -/
def errHook : Hook :=
  { httpClient := { Transport := testTransportErr },
    aclhost := some "http://acl", clientauthhost := some "http://auth",
    superuserhost := none, callback := defaultCallback }

/-- C1 witness: with a concrete always-failing transport, a concrete
connect check and a concrete topic check both deny. -/
theorem transport_error_denies_witness :
    errHook.OnConnectAuthenticate testMqttClient testPacket = false
    ∧ errHook.OnACLCheck testMqttClient "t/1" true = false := by
  have h := transport_error_denies errHook testMqttClient testPacket "t/1" true
    { msg := "connection refused" } { msg := "connection refused" } rfl rfl
  exact ⟨h.1, h.2.1⟩

/-- C3: when an override decision function is supplied in the options,
every check whose send step succeeds returns exactly the override's value
on the raw response — the installed callback IS the override, so the
default status-code policy is never consulted. -/
theorem override_callback_decides (h0 : Hook) (o : Options) (cb : HttpResponse → Bool)
    (cl : MqttClient) (pk : Packet) (topic : String) (write : Bool)
    (resp1 resp2 : HttpResponse)
    (hcb : o.Callback = some cb)
    (hval : validateConfig o = true)
    (hconn : (Hook.initState h0 (Config.options o)).1.makeRequest MethodPost
        (Hook.initState h0 (Config.options o)).1.clientauthhost
        (some (.clientCheck { ClientID := cl.ID, Password := pk.Connect.Password,
                              Username := pk.Connect.Username })) = .ok resp1)
    (hacl : (Hook.initState h0 (Config.options o)).1.makeRequest MethodPost
        (Hook.initState h0 (Config.options o)).1.aclhost
        (some (.aclCheck { ClientID := cl.ID, Username := cl.Properties.Username,
                           Topic := topic, ACC := FormatBool write })) = .ok resp2) :
    (Hook.initState h0 (Config.options o)).1.callback = cb
    ∧ (Hook.initState h0 (Config.options o)).1.OnConnectAuthenticate cl pk = cb resp1
    ∧ (Hook.initState h0 (Config.options o)).1.OnACLCheck cl topic write = cb resp2 := by
  have hcallback : (Hook.initState h0 (Config.options o)).1.callback = cb := by
    simp [Hook.initState, hval, hcb]
  refine ⟨hcallback, ?_, ?_⟩
  · simp [Hook.OnConnectAuthenticate, hconn, hcallback]
  · simp [Hook.OnACLCheck, hacl, hcallback]

/-- Options fixture with both hosts set, a transport answering 200, and an
override that always denies. -/
def testOverrideOptions : Options :=
  { ACLHost := some "http://acl", SuperUserHost := none,
    ClientAuthenticationHost := some "http://auth",
    RoundTripper := some testTransportOK,
    Callback := some (fun _ => false) }

/-- C3 witness: status 200 with an always-false override denies both a
concrete connect check and a concrete topic check. -/
theorem override_callback_decides_witness :
    (Hook.initState zeroHook (Config.options testOverrideOptions)).1.OnConnectAuthenticate
        testMqttClient testPacket = false
    ∧ (Hook.initState zeroHook (Config.options testOverrideOptions)).1.OnACLCheck
        testMqttClient "t/1" false = false := by
  have h := override_callback_decides zeroHook testOverrideOptions (fun _ => false)
    testMqttClient testPacket "t/1" false
    { statusCode := 200, body := "" } { statusCode := 200, body := "" }
    rfl rfl rfl rfl
  exact ⟨h.2.1, h.2.2⟩

/-- C4: `Init` fails exactly on the three conditions — nil config (distinct
error `nil config`), wrong shape (`improper config`), or a missing
required URL (`hostname configs failed validation`, which fires iff the
ACL host or the client-authentication host is nil); the three error kinds
and their messages are pairwise distinct; and with both required URLs
present and a nil round tripper, `Init` succeeds and the installed client
forwards every request to the default transport. -/
theorem init_error_taxonomy (h : Hook) (o : Options) :
    (Hook.initState h Config.cnil).2 = some InitError.errNilConfig
    ∧ (Hook.initState h Config.badShape).2 = some InitError.errBadConfigShape
    ∧ (validateConfig o = false →
        (Hook.initState h (Config.options o)).2 = some InitError.errInvalidHosts)
    ∧ (validateConfig o = false ↔ o.ACLHost = none ∨ o.ClientAuthenticationHost = none)
    ∧ (validateConfig o = true → (Hook.initState h (Config.options o)).2 = none)
    ∧ (validateConfig o = true → o.RoundTripper = none →
        ∀ r : HttpRequest,
          (Hook.initState h (Config.options o)).1.httpClient.Transport r = DefaultTransport r)
    ∧ (InitError.errNilConfig ≠ InitError.errBadConfigShape
        ∧ InitError.errNilConfig ≠ InitError.errInvalidHosts
        ∧ InitError.errBadConfigShape ≠ InitError.errInvalidHosts)
    ∧ (InitError.errNilConfig.message ≠ InitError.errBadConfigShape.message
        ∧ InitError.errNilConfig.message ≠ InitError.errInvalidHosts.message
        ∧ InitError.errBadConfigShape.message ≠ InitError.errInvalidHosts.message) := by
  refine ⟨rfl, rfl, ?_, ?_, ?_, ?_, by decide, by decide⟩
  · intro hv
    simp [Hook.initState, hv]
  · rcases o with ⟨a, s, c, rt, cb⟩
    cases a <;> cases c <;> simp [validateConfig]
  · intro hv
    simp [Hook.initState, hv]
  · intro hv hrt r
    simp [Hook.initState, hv, hrt, NewTransport, Transport.RoundTrip]

/-- Options fixture with both hosts set and no round tripper or override. -/
def testDefaultOptions : Options :=
  { ACLHost := some "http://acl", SuperUserHost := none,
    ClientAuthenticationHost := some "http://auth",
    RoundTripper := none, Callback := none }

/-- A concrete request fixture. -/
def testRequest : HttpRequest :=
  { method := "POST", url := some "http://acl", body := none }

/-- C4 witness: with both required URLs present and a nil round tripper,
a concrete `Init` succeeds and its installed client forwards a concrete
request to the default transport. -/
theorem init_error_taxonomy_witness :
    (Hook.initState zeroHook (Config.options testDefaultOptions)).2 = none
    ∧ (Hook.initState zeroHook (Config.options testDefaultOptions)).1.httpClient.Transport
        testRequest = DefaultTransport testRequest :=
  ⟨(init_error_taxonomy zeroHook testDefaultOptions).2.2.2.2.1 rfl,
   (init_error_taxonomy zeroHook testDefaultOptions).2.2.2.2.2.1 rfl rfl testRequest⟩

/-- C5: whenever `Init` returns an error, the hook's state after the call
is exactly the state before it — no field is modified, no partial state is
retained. -/
theorem init_failure_leaves_hook_unchanged (h : Hook) (c : Config)
    (herr : (Hook.initState h c).2 ≠ none) :
    (Hook.initState h c).1 = h := by
  cases c with
  | cnil => rfl
  | badShape => rfl
  | options o =>
    cases hv : validateConfig o with
    | false => simp [Hook.initState, hv]
    | true => exact absurd (by simp [Hook.initState, hv]) herr

/-- C5 witness: a concrete failing `Init` (nil config) leaves a concrete
hook exactly as it was. -/
theorem init_failure_leaves_hook_unchanged_witness :
    (Hook.initState errHook Config.cnil).1 = errHook :=
  init_failure_leaves_hook_unchanged errHook Config.cnil (by simp [Hook.initState])

/-- C10: `SuperUserHost` never influences observable behaviour: for any
two configurations differing only in that field, `Init` returns the same
error, the resulting hooks agree on every field a decision path reads
(hosts, client, callback), every `makeRequest` they can issue coincides,
and both entry points return the same booleans on every input — the field
is stored but never read. -/
theorem superuserhost_never_influences (h : Hook) (o : Options) (u : Option URL)
    (cl : MqttClient) (pk : Packet) (topic : String) (write : Bool) :
    (Hook.initState h (Config.options { o with SuperUserHost := u })).2
      = (Hook.initState h (Config.options o)).2
    ∧ (Hook.initState h (Config.options { o with SuperUserHost := u })).1.aclhost
      = (Hook.initState h (Config.options o)).1.aclhost
    ∧ (Hook.initState h (Config.options { o with SuperUserHost := u })).1.clientauthhost
      = (Hook.initState h (Config.options o)).1.clientauthhost
    ∧ (Hook.initState h (Config.options { o with SuperUserHost := u })).1.httpClient
      = (Hook.initState h (Config.options o)).1.httpClient
    ∧ (Hook.initState h (Config.options { o with SuperUserHost := u })).1.callback
      = (Hook.initState h (Config.options o)).1.callback
    ∧ (∀ (m : String) (uu : Option URL) (p : Option Payload),
        (Hook.initState h (Config.options { o with SuperUserHost := u })).1.makeRequest m uu p
          = (Hook.initState h (Config.options o)).1.makeRequest m uu p)
    ∧ (Hook.initState h (Config.options { o with SuperUserHost := u })).1.OnConnectAuthenticate cl pk
      = (Hook.initState h (Config.options o)).1.OnConnectAuthenticate cl pk
    ∧ (Hook.initState h (Config.options { o with SuperUserHost := u })).1.OnACLCheck cl topic write
      = (Hook.initState h (Config.options o)).1.OnACLCheck cl topic write := by
  have hveq : validateConfig { o with SuperUserHost := u } = validateConfig o := rfl
  cases hv : validateConfig o <;>
    refine ⟨?_, ?_, ?_, ?_, ?_, ?_, ?_, ?_⟩ <;>
      all_goals
        (intros
         simp [Hook.initState, hveq, hv, Hook.OnConnectAuthenticate, Hook.OnACLCheck,
               Hook.makeRequest, Client.Do])
